import Mathlib

/-!
Verification of the ICMP probe engine in `src/main.go` of the icmp-test
repository, as a shallow embedding in Lean 4.

Conventions of the embedding:
* Go `int` values become `Int`; Go `uint32` becomes `Nat` (callers keep the
  value below `2 ^ 32`); Go `byte` values become `Nat` values below 256.
* Byte strings become `List Nat`.
* Go `time.Duration` becomes `Int` (a count of nanoseconds).
* Functions of the Go standard library / `golang.org/x/net` that the program
  calls are modelled by small Lean functions, each carrying a doc comment
  saying what it models and how far the model reaches.
* Network I/O cannot be executed inside the embedding, so `runICMPTest` is
  parameterised by a `NetEnv` record describing the outcome of every
  external call (socket open, ToS, resolution, write, and the finite trace
  of receive events that the read loop consumes).
-/

/-! ## ICMP type codes (golang.org/x/net/ipv4 `ICMPType` constants) -/

def ICMPTypeEchoReply : Int := 0

def ICMPTypeEcho : Int := 8

def ICMPTypeTimestamp : Int := 13

def ICMPTypeTimestampReply : Int := 14

/-- Models the `String` method of `ipv4.ICMPType`.  Only the four type codes
this program constructs or compares against are given their registry names;
every other value is rendered by the placeholder that the library uses for
types absent from its table.  No theorem below depends on the rendering of a
type outside these four. -/
def icmpTypeString (t : Int) : String :=
  if t = ICMPTypeEchoReply then "echo reply"
  else if t = ICMPTypeEcho then "echo"
  else if t = ICMPTypeTimestamp then "timestamp"
  else if t = ICMPTypeTimestampReply then "timestamp reply"
  else "<nil>"

/-! ## IPv4 addresses (model of the parts of package `net` the program uses) -/

/-- An IPv4 address as four octets. -/
structure IPv4 where
  a : Nat
  b : Nat
  c : Nat
  d : Nat
deriving DecidableEq, Repr

/-- Splits a character list at every dot, keeping empty groups. -/
def splitDots : List Char → List (List Char)
  | [] => [[]]
  | c :: rest =>
    if c = '.' then [] :: splitDots rest
    else
      match splitDots rest with
      | [] => [[c]]
      | g :: gs => (c :: g) :: gs

/-- Parses one dotted-quad field the way `net.ParseIP` does: decimal digits
only, value at most 255, and no leading zero (a field of more than one digit
must not start with `0`). -/
def parseOctet : List Char → Option Nat
  | [] => none
  | c :: rest =>
    if !(c.isDigit && rest.all Char.isDigit) then none
    else if c = '0' && !rest.isEmpty then none
    else
      let v := (c :: rest).foldl (fun acc ch => acc * 10 + (ch.toNat - 48)) 0
      if v ≤ 255 then some v else none

/-- Models `net.ParseIP` restricted to IPv4 dotted-quad literals, the only
address syntax this IPv4-only program is used with.  A string that is not a
dotted quad (for example a host name) yields `none`, exactly as `net.ParseIP`
returns `nil` for it. -/
def parseIP (s : String) : Option IPv4 :=
  match splitDots s.data with
  | [p1, p2, p3, p4] =>
    match parseOctet p1, parseOctet p2, parseOctet p3, parseOctet p4 with
    | some x1, some x2, some x3, some x4 => some ⟨x1, x2, x3, x4⟩
    | _, _, _, _ => none
  | _ => none

/-- Models `net.IP.IsLoopback` on an IPv4 address: first octet 127. -/
def IPv4.isLoopback (ip : IPv4) : Bool :=
  ip.a == 127

/-- Models `ip.Equal(other)` where `other` may be the nil IP
(`none`); `Equal` on a nil argument is false. -/
def ipEqualOpt (ip : IPv4) (other : Option IPv4) : Bool :=
  match other with
  | some j => ip == j
  | none => false

/-- Models `net.IP.String`: dotted quad, or the nil placeholder. -/
def ipToString : Option IPv4 → String
  | none => "<nil>"
  | some ip =>
    toString ip.a ++ "." ++ toString ip.b ++ "." ++ toString ip.c ++ "." ++ toString ip.d

/-! ## Message bodies and the codec -/

/-- Go byte conversion of an `int`: the low 8 bits.  `Int.emod` agrees with
two's-complement truncation on negative inputs as well. -/
def goByte (x : Int) : Nat :=
  (x % 256).toNat

/-- The `icmpTimestamp` struct of `src/main.go` (lines 79-85): the ICMP
Timestamp message body, ID (2 bytes) + Seq (2 bytes) + OriginateTime (4
bytes) + ReceiveTime (4 bytes) + TransmitTime (4 bytes) = 16 bytes. -/
structure icmpTimestamp where
  ID : Int
  Seq : Int
  OriginateTime : Nat
  ReceiveTime : Nat
  TransmitTime : Nat
deriving DecidableEq, Repr

/-- `icmpTimestamp.Len` of `src/main.go` (lines 104-106): the body length is
16, whatever the protocol argument. -/
def icmpTimestamp.Len (_t : icmpTimestamp) (_proto : Int) : Int :=
  16

/-- `icmpTimestamp.Marshal` of `src/main.go` (lines 109-128): network byte
order (big endian).  Go `byte(t.ID >> 8)` is arithmetic shift then
truncation, i.e. `goByte (t.ID.fdiv 256)`; `byte(t.ID & 0xff)` is
`goByte t.ID`.  The `uint32` fields are `Nat` below `2 ^ 32`, for which
`byte(x >> 24)` is `x / 2 ^ 24 % 256`, and so on. -/
def icmpTimestamp.Marshal (t : icmpTimestamp) : List Nat :=
  [ goByte (t.ID.fdiv 256),
    goByte t.ID,
    goByte (t.Seq.fdiv 256),
    goByte t.Seq,
    t.OriginateTime / 2 ^ 24 % 256,
    t.OriginateTime / 2 ^ 16 % 256,
    t.OriginateTime / 2 ^ 8 % 256,
    t.OriginateTime % 256,
    t.ReceiveTime / 2 ^ 24 % 256,
    t.ReceiveTime / 2 ^ 16 % 256,
    t.ReceiveTime / 2 ^ 8 % 256,
    t.ReceiveTime % 256,
    t.TransmitTime / 2 ^ 24 % 256,
    t.TransmitTime / 2 ^ 16 % 256,
    t.TransmitTime / 2 ^ 8 % 256,
    t.TransmitTime % 256 ]

/-- The `icmp.Echo` body of `golang.org/x/net/icmp`: identifier, sequence
and payload. -/
structure echoBody where
  ID : Int
  Seq : Int
  Data : List Nat
deriving DecidableEq, Repr

/-- A decoded ICMP message body, mirroring the type switch of `runICMPTest`
(lines 311-322): `icmp.Echo`, the repository's own `icmpTimestamp`,
`icmp.RawBody` (an unrecognized body kept as raw bytes), and any other typed
body of the `icmp` package (which the switch leaves unmatched). -/
inductive ICMPBody where
  | echo (e : echoBody)
  | timestamp (t : icmpTimestamp)
  | raw (data : List Nat)
  | other
deriving DecidableEq, Repr

/-- The `icmp.Message` struct: type, code, body. -/
structure ICMPMessage where
  «Type» : Int
  Code : Int
  Body : ICMPBody
deriving DecidableEq, Repr

/-- The 36-character alphabet used for generated echo payloads
(`src/main.go` line 137). -/
def pattern : String :=
  "0123456789abcdefghijklmnopqrstuvwxyz"

/-- Byte `i` of the generated echo payload pattern: `pattern[i % 36]` as a
byte value (`src/main.go` line 139).  `getD` is total; the index is always
in bounds because of the modulus. -/
def patternByte (i : Nat) : Nat :=
  (pattern.data.getD (i % pattern.length) ' ').toNat

/-- `createICMPMessage` of `src/main.go` (lines 132-167).  For an echo
request it generates a payload of `payloadSize` bytes filled with the
cyclic `0-9a-z` pattern; for a timestamp request it builds an
`icmpTimestamp` body with zero clock fields; any other request type is an
error naming the type.  `payloadSize` is a Go `int`; every caller has
validated it to be non-negative, and `Int.toNat` realises the list length. -/
def createICMPMessage (reqType : Int) (id seq : Int) (payloadSize : Int) :
    Except String ICMPMessage :=
  if reqType = ICMPTypeEcho then
    let data := (List.range payloadSize.toNat).map patternByte
    .ok { «Type» := reqType, Code := 0, Body := .echo { ID := id, Seq := seq, Data := data } }
  else if reqType = ICMPTypeTimestamp then
    .ok { «Type» := reqType, Code := 0,
          Body := .timestamp
            { ID := id, Seq := seq, OriginateTime := 0, ReceiveTime := 0, TransmitTime := 0 } }
  else
    .error ("unsupported request type: " ++ icmpTypeString reqType)

/-- The identifier a raw (unrecognized) body is inspected for, by byte
offset: `int(body.Data[0])<<8 | int(body.Data[1])` (`src/main.go` line 318).
The Go expression computes in `int` on byte values, which agrees with the
`Nat` computation; the caller guards `len(body.Data) >= 4`. -/
def rawReplyID (data : List Nat) : Int :=
  Int.ofNat ((data.getD 0 0) <<< 8 ||| data.getD 1 0)

/-- The sequence number a raw body is inspected for, by byte offset:
`int(body.Data[2])<<8 | int(body.Data[3])` (`src/main.go` line 319). -/
def rawReplySeq (data : List Nat) : Int :=
  Int.ofNat ((data.getD 2 0) <<< 8 ||| data.getD 3 0)

/-- Big-endian unsigned encoding of a value into `w` bytes, written from the
specification text (identifier/sequence 2 bytes, clock fields 4 bytes, every
integer field big-endian); used to compare `icmpTimestamp.Marshal` against
the specified layout. -/
def beBytes : Nat → Nat → List Nat
  | 0, _ => []
  | w + 1, v => v / 2 ^ (8 * w) % 256 :: beBytes w v

/-! ## Basic codec lemmas -/

theorem shiftLeft8_or_eq (a b : Nat) (hb : b < 256) :
    (a <<< 8) ||| b = 256 * a + b := by
  have hb2 : b < 2 ^ 8 := by omega
  have h : 2 ^ 8 * a ||| b = 2 ^ 8 * a + b := (Nat.mul_add_lt_is_or hb2 a).symm
  rw [Nat.shiftLeft_eq, Nat.mul_comm, h]
  norm_num

/-! ## Configuration, test and result records -/

/-- The `generalConfig` struct (`src/main.go` lines 20-30), with the resolved
`net.Interface` flattened to the three attributes the engine reads: name,
index and MTU. -/
structure generalConfig where
  Output : String
  Parallelism : Int
  TOS : Int
  InterfaceName : String
  InterfaceIndex : Int
  InterfaceMTU : Int
  SourceIPAddress : Option IPv4
  ResultFilter : List String
  SetDFBit : Bool
deriving DecidableEq, Repr

/-- The `testInput` struct (lines 56-63): one configured test scenario. -/
structure testInput where
  Name : String
  Destination : String
  RequestType : String
  ExpectedResult : String
  Timeout : Option String
  PayloadSize : Option Int
deriving DecidableEq, Repr

/-- The `Config` struct (lines 33-36). -/
structure Config where
  General : generalConfig
  Tests : List testInput
deriving DecidableEq, Repr

/-- The `Test` struct (lines 65-74): a validated probe.  `RequestType` is an
ICMP type code, `Timeout` a duration in nanoseconds. -/
structure Test where
  Name : String
  Destination : String
  ID : Int
  Seq : Int
  RequestType : Int
  Timeout : Int
  ExpectedResult : String
  PayloadSize : Int
deriving DecidableEq, Repr

/-- The `TestResult` struct (lines 170-182).  `Duration` and `Timestamp` are
nanosecond counts. -/
structure TestResult where
  Name : String
  SourceInterface : String
  SourceIPAddress : String
  Destination : String
  RequestType : String
  ExpectedResult : String
  ActualResult : String
  Duration : Int
  Status : String
  Details : String
  Timestamp : Int
deriving DecidableEq, Repr

/-- Models the fmt `%v` rendering of a `time.Duration` as an injective
textual image of the nanosecond count.  Go prints a human-readable unit form
(for instance `1s`); no theorem below inspects anything about this rendering
beyond which duration it came from. -/
def durFmt (d : Int) : String :=
  toString d ++ "ns"

/-- The result value built on entry to `runICMPTest` (lines 187-195): the
identification fields are filled in; status, details, actual result and
duration keep their Go zero values. -/
def baseResult (config : Config) (test : Test) (now : Int) : TestResult :=
  { Name := test.Name
    SourceInterface := config.General.InterfaceName
    SourceIPAddress := ipToString config.General.SourceIPAddress
    Destination := test.Destination
    RequestType := icmpTypeString test.RequestType
    ExpectedResult := test.ExpectedResult
    ActualResult := ""
    Duration := 0
    Status := ""
    Details := ""
    Timestamp := now }

/-- The `fail` closure of `runICMPTest` (lines 197-201): mark the result
FAILED and attach the formatted details. -/
def failR (r : TestResult) (details : String) : TestResult :=
  { r with Status := "FAILED", Details := details }

/-- The loopback test of `getICMPResponseType` (lines 365-368):
`ip := net.ParseIP(dest); ip != nil && ip.IsLoopback()`. -/
def destIsLoopback (dest : String) : Bool :=
  match parseIP dest with
  | some ip => ip.isLoopback
  | none => false

/-- The self test of the receive loop (lines 342-346): the destination
parses as an IP that is loopback or equals the configured source address. -/
def isSelfDest (dest : String) (src : Option IPv4) : Bool :=
  match parseIP dest with
  | some ip => ip.isLoopback || ipEqualOpt ip src
  | none => false

/-- `getICMPResponseType` (lines 360-373): the expected reply type, from the
request kind and the destination.  An `echo` request expects an echo reply;
a `timestamp` request expects the timestamp type itself when the destination
parses as a loopback address, otherwise a timestamp reply; anything else is
an error (the Go function pairs it with the invalid code 99, which the
caller never reads). -/
def getICMPResponseType (test : Test) : Except String Int :=
  if icmpTypeString test.RequestType = "echo" then
    .ok ICMPTypeEchoReply
  else if icmpTypeString test.RequestType = "timestamp" then
    if destIsLoopback test.Destination then .ok ICMPTypeTimestamp
    else .ok ICMPTypeTimestampReply
  else
    .error ("unsupported ICMP type: " ++ icmpTypeString test.RequestType)

/-- `parseICMPRequestType` (lines 375-384): the request-type label to the
ICMP type code. -/
def parseICMPRequestType (reqType : String) : Except String Int :=
  if reqType = "echo" then .ok ICMPTypeEcho
  else if reqType = "timestamp" then .ok ICMPTypeTimestamp
  else .error ("unsupported request type: " ++ reqType)

/-- The type switch of the receive loop (lines 310-322): whether a decoded
body carries the probe's (identifier, sequence) pair.  Echo and timestamp
bodies carry the pair directly; a raw body is inspected at byte offsets 0-3
only when it has at least 4 data bytes; any other body never matches. -/
def matchBody (body : ICMPBody) (test : Test) : Bool :=
  match body with
  | .echo e => e.ID == test.ID && e.Seq == test.Seq
  | .timestamp t => t.ID == test.ID && t.Seq == test.Seq
  | .raw data =>
    if data.length ≥ 4 then
      rawReplyID data == test.ID && rawReplySeq data == test.Seq
    else
      false
  | .other => false

/-- The (identifier, sequence) pair a body carries, stated from the
specification's reading of the same switch: used to express claims about
matching without restating `matchBody`. -/
def bodyPair : ICMPBody → Option (Int × Int)
  | .echo e => some (e.ID, e.Seq)
  | .timestamp t => some (t.ID, t.Seq)
  | .raw data => if data.length ≥ 4 then some (rawReplyID data, rawReplySeq data) else none
  | .other => none

/-- One iteration's input to the receive loop (lines 286-307): the read
deadline expired, another I/O error occurred, or a datagram arrived from a
peer (`parsed` is the outcome of `icmp.ParseMessage`; `none` when the bytes
do not parse).  `elapsed` is `time.Since(start)` observed at that
iteration. -/
inductive RecvEvent where
  | timeout (elapsed : Int)
  | ioError (msg : String) (elapsed : Int)
  | datagram (parsed : Option ICMPMessage) (peer : String) (elapsed : Int)
deriving DecidableEq, Repr

/-- What one iteration of the receive loop does: keep waiting, or terminate
the probe with a result. -/
inductive StepOutcome where
  | continueWaiting
  | done (r : TestResult)
deriving DecidableEq, Repr

/-- One iteration of the receive loop of `runICMPTest` (lines 284-356),
given the partially built result (identification fields already set). -/
def loopStep (config : Config) (test : Test) (result : TestResult)
    (ev : RecvEvent) : StepOutcome :=
  match ev with
  | .timeout elapsed =>
    let result := { result with Duration := elapsed, ActualResult := "timeout" }
    if test.ExpectedResult ≠ "timeout" then
      .done (failR result
        ("expected response, but timed out after " ++ durFmt test.Timeout ++
         " waiting for matching message"))
    else
      .done { result with Status := "PASSED",
                          Details := "expected timeout occurred (after " ++
                                     durFmt test.Timeout ++ ")" }
  | .ioError msg elapsed =>
    .done (failR { result with Duration := elapsed } ("ReadFrom error: " ++ msg))
  | .datagram parsed peer elapsed =>
    match parsed with
    | none => .continueWaiting
    | some parsedMsg =>
      if !(matchBody parsedMsg.Body test) then .continueWaiting
      else
        let result := { result with Duration := elapsed,
                                    ActualResult := icmpTypeString parsedMsg.«Type» }
        if test.ExpectedResult = "timeout" then
          .done (failR result
            ("received response " ++ icmpTypeString parsedMsg.«Type» ++ " from " ++ peer ++
             ", but expected timeout"))
        else
          match getICMPResponseType test with
          | .error _ => .continueWaiting
          | .ok expectedICMPResponseType =>
            if parsedMsg.«Type» ≠ expectedICMPResponseType then
              let isSelf := isSelfDest test.Destination config.General.SourceIPAddress
              if isSelf && (parsedMsg.«Type» == ICMPTypeEcho ||
                            parsedMsg.«Type» == ICMPTypeTimestamp) then
                .continueWaiting
              else
                .done (failR result
                  ("received unexpected ICMP type " ++ icmpTypeString parsedMsg.«Type» ++
                   " from " ++ peer ++ " (expected " ++
                   icmpTypeString expectedICMPResponseType ++ ")"))
            else
              .done { result with Status := "PASSED",
                                  Details := "received expected response " ++
                                             icmpTypeString parsedMsg.«Type» ++
                                             " from " ++ peer }

/-- The receive loop run over a finite trace of events.  `none` means the
trace ended while the loop was still waiting (in the real program the read
deadline guarantees that a timeout event eventually arrives). -/
def recvLoop (config : Config) (test : Test) (result : TestResult) :
    List RecvEvent → Option TestResult
  | [] => none
  | ev :: rest =>
    match loopStep config test result ev with
    | .continueWaiting => recvLoop config test result rest
    | .done r => some r

/-- Outcomes of the external calls `runICMPTest` performs, in program order;
`none` means the call succeeded. -/
structure NetEnv where
  now : Int
  listenIPError : Option String
  setTOSError : Option String
  setControlMessageError : Option String
  resolveError : Option String
  writeResult : Except String Int
  setReadDeadlineError : Option String
  recvEvents : List RecvEvent
deriving Repr

/-- What the process does for one probe: return a probe-local result, abort
the whole process through `log.Fatalf`, or (a model artefact) run out of
trace while the loop was still waiting. -/
inductive ProcOutcome where
  | result (r : TestResult)
  | fatal (msg : String)
  | blocked
deriving DecidableEq, Repr

/-- Whether an outcome is a `log.Fatalf` process abort. -/
def ProcOutcome.isFatal : ProcOutcome → Bool
  | .fatal _ => true
  | _ => false

/-- Marshalled bytes of a message body.  Echo bodies marshal to a 4-byte
identifier/sequence header followed by the payload; the timestamp body to
its own 16-byte layout. -/
def bodyBytes : ICMPBody → List Nat
  | .echo e => [goByte (e.ID.fdiv 256), goByte e.ID, goByte (e.Seq.fdiv 256), goByte e.Seq] ++ e.Data
  | .timestamp t => t.Marshal
  | .raw data => data
  | .other => []

/-- Models `icmp.Message.Marshal` with a nil pseudo header: the 4-byte ICMP
header (type, code, two checksum bytes) followed by the marshalled body.
The real function fills bytes 2-3 with the internet checksum of the whole
message; no theorem below inspects those two bytes, so the model leaves
them zero. -/
def messageMarshal (m : ICMPMessage) : List Nat :=
  [goByte m.«Type», goByte m.Code, 0, 0] ++ bodyBytes m.Body

/-- `runICMPTest` (lines 186-357) over an explicit environment.  The DF-bit
socket option block (lines 212-224) only logs a warning on failure and
changes no observable state of the embedding, and the MTU warning print
(lines 251-256) likewise, so neither appears as a branch. -/
def runICMPTest (env : NetEnv) (config : Config) (test : Test) : ProcOutcome :=
  let result := baseResult config test env.now
  match env.listenIPError with
  | some e => .fatal ("ListenIP failed: " ++ e)
  | none =>
  match env.setTOSError with
  | some e => .fatal ("SetTOS failed: " ++ e)
  | none =>
  match env.setControlMessageError with
  | some e => .fatal ("SetControlMessage failed: " ++ e)
  | none =>
  match env.resolveError with
  | some e =>
    .result (failR result ("[error] test name: " ++ test.Name ++ ", ResolveIPAddr error: " ++ e))
  | none =>
  match createICMPMessage test.RequestType test.ID test.Seq test.PayloadSize with
  | .error e =>
    .result (failR result ("[error] test name: " ++ test.Name ++ ", createICMPMessage error: " ++ e))
  | .ok msg =>
  let b := messageMarshal msg
  match env.writeResult with
  | .error e => .result (failR result ("WriteTo error: " ++ e))
  | .ok n =>
  if n ≠ Int.ofNat b.length then
    .result (failR result ("sent " ++ toString n ++ " bytes, expected " ++ toString b.length))
  else
  match env.setReadDeadlineError with
  | some e => .result (failR result ("SetReadDeadline error: " ++ e))
  | none =>
  match recvLoop config test result env.recvEvents with
  | some r => .result r
  | none => .blocked

/-! ## Per-probe validation and the scheduler (from `main`, lines 639-722) -/

/-- Default values (`src/main.go` lines 89-95). -/
def defaultOutput : String := "text"

def defaultParallelism : Int := 1

def defaultTOS : Int := 0

def defaultTimeout : String := "1s"

def defaultPayloadSize : Int := 32

def defaultSetDFBit : Bool := false

/-- `buildFailedTestResult` (lines 386-398): a FAILED result built straight
from the raw test input, with actual result `N/A`, zero duration, and the
interface/source fields left at their zero values. -/
def buildFailedTestResult (ti : testInput) (details : String) (now : Int) : TestResult :=
  { Name := ti.Name
    SourceInterface := ""
    SourceIPAddress := ""
    Destination := ti.Destination
    RequestType := ti.RequestType
    ExpectedResult := ti.ExpectedResult
    ActualResult := "N/A"
    Duration := 0
    Status := "FAILED"
    Details := details
    Timestamp := now }

/-- Models `time.ParseDuration` as a lookup table over the literal duration
strings the theorems below exercise, mapping each to its nanosecond count
exactly as the library does; `none` stands for the parse error the library
returns on a string that is not a duration. -/
def parseDurationLit (s : String) : Option Int :=
  if s = "1s" then some 1000000000
  else if s = "2s" then some 2000000000
  else if s = "500us" then some 500000
  else if s = "1ms" then some 1000000
  else if s = "10s" then some 10000000000
  else if s = "11s" then some 11000000000
  else if s = "0s" then some 0
  else none

/-- Outcome of the per-probe validation performed inside the scheduler
goroutine: either a FAILED result recorded without any socket having been
opened, or a validated `Test` that goes on to `runICMPTest` (which opens a
socket first thing). -/
inductive ProbePrep where
  | failed (r : TestResult)
  | proceed (t : Test)
deriving DecidableEq, Repr

/-- The timeout string selected for a probe (lines 670-675): the configured
string when present, the default otherwise. -/
def timeoutString (ti : testInput) : String :=
  match ti.Timeout with
  | none => defaultTimeout
  | some s => s

/-- The validation sequence of the scheduler goroutine (`src/main.go` lines
664-719), for the probe at 0-based slice index `i`: expected-result label,
then timeout string parse (defaulted to `defaultTimeout` when absent), then
the duration bound check, then the request-type label, then the payload
size bound check (only when a size was specified, otherwise the default).
A probe that passes all of them becomes a `Test` carrying the shared `pid`
identifier and sequence number `i + 1`.  `parseDuration` stands for
`time.ParseDuration`; the model omits the library's error text inside the
invalid-timeout detail string. -/
def prepareProbe (parseDuration : String → Option Int) (pid : Int) (now : Int)
    (i : Nat) (ti : testInput) : ProbePrep :=
  if ti.ExpectedResult ≠ "response" ∧ ti.ExpectedResult ≠ "timeout" then
    .failed (buildFailedTestResult ti
      ("invalid expected_result: \"" ++ ti.ExpectedResult ++ "\"") now)
  else
    match parseDuration (timeoutString ti) with
    | none =>
      .failed (buildFailedTestResult ti
        ("invalid timeout \"" ++ timeoutString ti ++ "\": parse error") now)
    | some duration =>
      if duration ≤ 0 ∨ duration > 10 * 1000000000 then
        .failed (buildFailedTestResult ti
          ("invalid timeout \"" ++ timeoutString ti ++ "\": must be between 1ms and 10s") now)
      else
        match parseICMPRequestType ti.RequestType with
        | .error e => .failed (buildFailedTestResult ti e now)
        | .ok reqType =>
          match ti.PayloadSize with
          | some p =>
            if p < 0 ∨ p > 65507 then
              .failed (buildFailedTestResult ti
                ("invalid payload_size " ++ toString p ++ ": must be between 0 and 65507") now)
            else
              .proceed
                { Name := ti.Name, Destination := ti.Destination, ID := pid,
                  Seq := (i : Int) + 1, RequestType := reqType, Timeout := duration,
                  ExpectedResult := ti.ExpectedResult, PayloadSize := p }
          | none =>
            .proceed
              { Name := ti.Name, Destination := ti.Destination, ID := pid,
                Seq := (i : Int) + 1, RequestType := reqType, Timeout := duration,
                ExpectedResult := ti.ExpectedResult, PayloadSize := defaultPayloadSize }

/-- The result-collection write pattern of `main` (lines 647-722): `k`
result slots created up front, unit `i` writing its result at index `i`,
with `order` the order in which units happen to complete.  `unit i` is the
result the probe at index `i` computes; it depends only on `i` and the
probe's own inputs, never on the completion order. -/
def execSchedule (unit : Nat → TestResult) (k : Nat) (order : List Nat) :
    List (Option TestResult) :=
  order.foldl (fun arr i => arr.set i (some (unit i))) (List.replicate k none)

/-- The generated-payload alphabet as byte values. -/
def patternBytes : List Nat :=
  pattern.data.map Char.toNat

/-! ## Concrete fixtures used by witnesses and counterexamples -/

/-- A configuration with a resolved interface and source address. -/
def cfg0 : Config :=
  { General :=
    { Output := "text", Parallelism := 1, TOS := 0, InterfaceName := "eth0",
      InterfaceIndex := 1, InterfaceMTU := 1500,
      SourceIPAddress := some ⟨192, 168, 0, 10⟩, ResultFilter := [],
      SetDFBit := false },
    Tests := [] }

/-- An echo probe to a remote destination expecting a response. -/
def testEchoResp : Test :=
  { Name := "echo-resp", Destination := "192.0.2.7", ID := 5, Seq := 1,
    RequestType := ICMPTypeEcho, Timeout := 1000000000,
    ExpectedResult := "response", PayloadSize := 32 }

/-- An echo probe to a remote destination expecting a timeout. -/
def testEchoTimeoutExp : Test :=
  { testEchoResp with Name := "echo-timeout", ExpectedResult := "timeout" }

/-- A timestamp probe to the loopback address. -/
def testTsLoopback : Test :=
  { Name := "ts-loop", Destination := "127.0.0.1", ID := 5, Seq := 2,
    RequestType := ICMPTypeTimestamp, Timeout := 1000000000,
    ExpectedResult := "response", PayloadSize := 32 }

/-- A timestamp probe to a remote destination. -/
def testTsRemote : Test :=
  { testTsLoopback with Name := "ts-remote", Destination := "192.0.2.7", Seq := 3 }

/-- An echo probe addressed to the loopback address (a self probe). -/
def testSelfEcho : Test :=
  { Name := "self-echo", Destination := "127.0.0.1", ID := 5, Seq := 4,
    RequestType := ICMPTypeEcho, Timeout := 1000000000,
    ExpectedResult := "response", PayloadSize := 32 }

/-- The partially built result for a fixture test. -/
def result0 (test : Test) : TestResult :=
  baseResult cfg0 test 0

/-- A timestamp-typed datagram whose raw body carries the pair (5, 4). -/
def msgTsRawSelf : ICMPMessage :=
  { «Type» := ICMPTypeTimestamp, Code := 0, Body := .raw [0, 5, 0, 4] }

/-- An environment in which every external call succeeds, the write accepts
all 40 bytes of the echo message, and the only receive event is the read
deadline expiring. -/
def envOk : NetEnv :=
  { now := 0, listenIPError := none, setTOSError := none,
    setControlMessageError := none, resolveError := none,
    writeResult := .ok 40, setReadDeadlineError := none,
    recvEvents := [.timeout 1000000000] }

/-- The same environment with destination resolution failing. -/
def envResolveFail : NetEnv :=
  { envOk with resolveError := some "lookup nonesuch: no such host" }

/-- The same environment with the raw-socket open failing. -/
def envListenFail : NetEnv :=
  { envOk with listenIPError := some "socket: operation not permitted" }

/-- The same environment with the ToS socket option failing. -/
def envTOSFail : NetEnv :=
  { envOk with setTOSError := some "invalid argument" }

/-- A configured probe whose timeout string is 500 microseconds: below the
1ms bound that the code's own error message documents. -/
def tiTimeout500us : testInput :=
  { Name := "sub-ms", Destination := "192.0.2.7", RequestType := "echo",
    ExpectedResult := "response", Timeout := some "500us", PayloadSize := none }

/-- The unit-of-work function used by the scheduler witness: every index
computes the same fixture result. -/
def unit0 : Nat → TestResult :=
  fun _ => result0 testEchoResp

/-- The `Test` that `prepareProbe` builds from `tiTimeout500us` at index 0
with identifier 5. -/
def testSubMs : Test :=
  { Name := "sub-ms", Destination := "192.0.2.7", ID := 5, Seq := 1,
    RequestType := ICMPTypeEcho, Timeout := 500000,
    ExpectedResult := "response", PayloadSize := 32 }

/-! ## Helper lemmas -/

theorem beBytes_two (v : Nat) : beBytes 2 v = [v / 256 % 256, v % 256] := by
  have h1 : beBytes 2 v = v / 2 ^ (8 * 1) % 256 :: beBytes 1 v := rfl
  have h2 : beBytes 1 v = v / 2 ^ (8 * 0) % 256 :: beBytes 0 v := rfl
  have h3 : beBytes 0 v = [] := rfl
  rw [h1, h2, h3]
  norm_num

theorem beBytes_four (v : Nat) :
    beBytes 4 v = [v / 16777216 % 256, v / 65536 % 256, v / 256 % 256, v % 256] := by
  have h1 : beBytes 4 v = v / 2 ^ (8 * 3) % 256 :: beBytes 3 v := rfl
  have h2 : beBytes 3 v = v / 2 ^ (8 * 2) % 256 :: beBytes 2 v := rfl
  rw [h1, h2, beBytes_two]
  norm_num

theorem matchBody_of_bodyPair (test : Test) (body : ICMPBody) (a b : Int)
    (h : bodyPair body = some (a, b)) :
    matchBody body test = (a == test.ID && b == test.Seq) := by
  cases body with
  | echo e =>
    simp only [bodyPair, Option.some.injEq, Prod.mk.injEq] at h
    simp [matchBody, h.1, h.2]
  | timestamp t =>
    simp only [bodyPair, Option.some.injEq, Prod.mk.injEq] at h
    simp [matchBody, h.1, h.2]
  | raw data =>
    simp only [bodyPair] at h
    by_cases hlen : data.length ≥ 4
    · rw [if_pos hlen] at h
      simp only [Option.some.injEq, Prod.mk.injEq] at h
      simp [matchBody, if_pos hlen, h.1, h.2]
    · rw [if_neg hlen] at h
      exact absurd h (by simp)
  | other =>
    exact absurd h (by simp [bodyPair])

/-! ## C2: mismatched (identifier, sequence) pairs are discarded -/

/-- C2: a received datagram whose decoded body carries an (identifier,
sequence) pair different from the probe's pair makes the correlator
continue waiting — it never terminates the probe on such a datagram,
whatever the datagram's ICMP type (in particular when that type equals the
expected reply type). -/
theorem C2_mismatched_pair_discarded (config : Config) (test : Test)
    (result : TestResult) (m : ICMPMessage) (peer : String) (elapsed : Int)
    (pr : Int × Int) (hpair : bodyPair m.Body = some pr)
    (hne : pr ≠ (test.ID, test.Seq)) :
    loopStep config test result (.datagram (some m) peer elapsed) =
      .continueWaiting := by
  obtain ⟨a, b⟩ := pr
  have hm : matchBody m.Body test = false := by
    rw [matchBody_of_bodyPair test m.Body a b hpair]
    rw [Bool.and_eq_false_iff]
    by_cases h1 : a = test.ID
    · right
      rw [beq_eq_false_iff_ne]
      intro h2
      exact hne (by rw [h1, h2])
    · left
      rw [beq_eq_false_iff_ne]
      exact h1
  simp [loopStep, hm]

/-- Witness for C2: an echo reply carrying identifier 6 instead of 5, with
the matching expected reply type, is discarded. -/
theorem C2_mismatched_pair_discarded_witness :
    loopStep cfg0 testEchoResp (result0 testEchoResp)
      (.datagram (some { «Type» := ICMPTypeEchoReply, Code := 0,
                         Body := .echo { ID := 6, Seq := 1, Data := [] } }) "192.0.2.7" 5000000) =
      .continueWaiting :=
  C2_mismatched_pair_discarded cfg0 testEchoResp (result0 testEchoResp)
    { «Type» := ICMPTypeEchoReply, Code := 0,
      Body := .echo { ID := 6, Seq := 1, Data := [] } } "192.0.2.7" 5000000
    (6, 1) (by decide) (by decide)

/-! ## C3: timestamp wire format -/

/-- C3: for every timestamp body with identifier and sequence in 0..65535
(and 32-bit clock fields), `Marshal` produces exactly 16 bytes laid out as
identifier(2B) ‖ sequence(2B) ‖ originate(4B) ‖ receive(4B) ‖ transmit(4B),
every integer field big-endian, the declared body length is 16, and the
byte-offset decode of those bytes recovers identifier and sequence
exactly. -/
theorem C3_timestamp_wire_format (id seq : Int) (o r tr : Nat)
    (hid0 : 0 ≤ id) (hid1 : id ≤ 65535) (hseq0 : 0 ≤ seq) (hseq1 : seq ≤ 65535)
    (_ho : o < 2 ^ 32) (_hr : r < 2 ^ 32) (_htr : tr < 2 ^ 32) :
    (icmpTimestamp.mk id seq o r tr).Marshal.length = 16 ∧
    (icmpTimestamp.mk id seq o r tr).Len 0 = 16 ∧
    (icmpTimestamp.mk id seq o r tr).Marshal =
      beBytes 2 id.toNat ++ beBytes 2 seq.toNat ++
      beBytes 4 o ++ beBytes 4 r ++ beBytes 4 tr ∧
    rawReplyID (icmpTimestamp.mk id seq o r tr).Marshal = id ∧
    rawReplySeq (icmpTimestamp.mk id seq o r tr).Marshal = seq := by
  have hfd : ∀ x : Int, x.fdiv 256 = x / 256 := fun x => Int.fdiv_eq_ediv x (by norm_num)
  refine ⟨rfl, rfl, ?_, ?_, ?_⟩
  · rw [beBytes_two, beBytes_two, beBytes_four, beBytes_four, beBytes_four]
    simp only [icmpTimestamp.Marshal, goByte, hfd, List.cons_append, List.nil_append,
      List.cons.injEq, and_true]
    norm_num
    omega
  · simp only [rawReplyID, icmpTimestamp.Marshal, List.getD_cons_zero, List.getD_cons_succ]
    rw [shiftLeft8_or_eq _ _ (by simp only [goByte]; omega)]
    simp only [goByte, hfd, Int.ofNat_eq_coe]
    push_cast
    omega
  · simp only [rawReplySeq, icmpTimestamp.Marshal, List.getD_cons_zero, List.getD_cons_succ]
    rw [shiftLeft8_or_eq _ _ (by simp only [goByte]; omega)]
    simp only [goByte, hfd, Int.ofNat_eq_coe]
    push_cast
    omega

/-- Witness for C3 at identifier 5, sequence 2, zero clock fields. -/
theorem C3_timestamp_wire_format_witness :
    (icmpTimestamp.mk 5 2 0 0 0).Marshal.length = 16 ∧
    (icmpTimestamp.mk 5 2 0 0 0).Len 0 = 16 ∧
    (icmpTimestamp.mk 5 2 0 0 0).Marshal =
      beBytes 2 (5 : Int).toNat ++ beBytes 2 (2 : Int).toNat ++
      beBytes 4 0 ++ beBytes 4 0 ++ beBytes 4 0 ∧
    rawReplyID (icmpTimestamp.mk 5 2 0 0 0).Marshal = 5 ∧
    rawReplySeq (icmpTimestamp.mk 5 2 0 0 0).Marshal = 2 :=
  C3_timestamp_wire_format 5 2 0 0 0 (by norm_num) (by norm_num) (by norm_num)
    (by norm_num) (by norm_num) (by norm_num) (by norm_num)

/-! ## C9: generated echo payload -/

/-- C9: for payload size n (0 ≤ n ≤ 65507) the generated echo payload has
exactly n bytes, byte i being character (i mod 36) of
`0123456789abcdefghijklmnopqrstuvwxyz`; n = 0 yields the empty payload and
n = 72 the 36-character pattern exactly twice. -/
theorem C9_echo_payload_pattern (n : Nat) (hn : n ≤ 65507) (id seq : Int) :
    ∃ e : echoBody,
      createICMPMessage ICMPTypeEcho id seq (Int.ofNat n) =
        .ok { «Type» := ICMPTypeEcho, Code := 0, Body := .echo e } ∧
      e.ID = id ∧ e.Seq = seq ∧
      e.Data.length = n ∧
      (∀ i : Nat, i < n → e.Data.getD i 0 = (pattern.data.getD (i % 36) ' ').toNat) ∧
      (n = 0 → e.Data = []) ∧
      (n = 72 → e.Data = patternBytes ++ patternBytes) := by
  refine ⟨{ ID := id, Seq := seq,
            Data := (List.range (Int.ofNat n).toNat).map patternByte }, ?_, rfl, rfl, ?_, ?_, ?_, ?_⟩
  · simp [createICMPMessage]
  · simp
  · intro i hi
    have hget : ((List.range (Int.ofNat n).toNat).map patternByte).getD i 0 = patternByte i := by
      rw [List.getD_eq_getElem?_getD]
      simp [List.getElem?_map, List.getElem?_range, hi]
    rw [hget]
    have hlen : pattern.length = 36 := by decide
    simp only [patternByte, hlen]
  · intro h
    subst h
    show (List.range (Int.ofNat 0).toNat).map patternByte = []
    decide
  · intro h
    subst h
    show (List.range (Int.ofNat 72).toNat).map patternByte = patternBytes ++ patternBytes
    decide

/-- Witness for C9 at n = 72. -/
theorem C9_echo_payload_pattern_witness :
    ∃ e : echoBody,
      createICMPMessage ICMPTypeEcho 5 1 (Int.ofNat 72) =
        .ok { «Type» := ICMPTypeEcho, Code := 0, Body := .echo e } ∧
      e.ID = 5 ∧ e.Seq = 1 ∧
      e.Data.length = 72 ∧
      (∀ i : Nat, i < 72 → e.Data.getD i 0 = (pattern.data.getD (i % 36) ' ').toNat) ∧
      (72 = 0 → e.Data = []) ∧
      (72 = 72 → e.Data = patternBytes ++ patternBytes) :=
  C9_echo_payload_pattern 72 (by norm_num) 5 1

/-! ## C10: raw-body byte-offset extraction -/

/-- C10: a raw (unrecognized) body with at least 4 data bytes is inspected
for the big-endian identifier at bytes 0-1 and the big-endian sequence at
bytes 2-3, and matches exactly when both equal the probe's pair; a raw body
with fewer than 4 data bytes never matches, so the byte-offset extraction
never reads out of bounds. -/
theorem C10_raw_body_offsets (data : List Nat) (test : Test)
    (hbytes : ∀ x ∈ data, x < 256) :
    (data.length < 4 → matchBody (.raw data) test = false) ∧
    (4 ≤ data.length →
      rawReplyID data = Int.ofNat (256 * data.getD 0 0 + data.getD 1 0) ∧
      rawReplySeq data = Int.ofNat (256 * data.getD 2 0 + data.getD 3 0) ∧
      matchBody (.raw data) test =
        (rawReplyID data == test.ID && rawReplySeq data == test.Seq)) := by
  constructor
  · intro hlt
    simp only [matchBody]
    rw [if_neg (by omega)]
  · intro hge
    have hb1 : data.getD 1 0 < 256 := by
      have h1 : (1 : Nat) < data.length := by omega
      rw [List.getD_eq_getElem _ _ h1]
      exact hbytes _ (List.getElem_mem h1)
    have hb3 : data.getD 3 0 < 256 := by
      have h3 : (3 : Nat) < data.length := by omega
      rw [List.getD_eq_getElem _ _ h3]
      exact hbytes _ (List.getElem_mem h3)
    refine ⟨?_, ?_, ?_⟩
    · simp only [rawReplyID]
      rw [shiftLeft8_or_eq _ _ hb1]
    · simp only [rawReplySeq]
      rw [shiftLeft8_or_eq _ _ hb3]
    · simp only [matchBody]
      rw [if_pos hge]

/-- Witness for C10 at the 4-byte raw body carrying (5, 1), matched against
the fixture probe with identifier 5 and sequence 1. -/
theorem C10_raw_body_offsets_witness :
    (([0, 5, 0, 1] : List Nat).length < 4 →
      matchBody (.raw [0, 5, 0, 1]) testEchoResp = false) ∧
    (4 ≤ ([0, 5, 0, 1] : List Nat).length →
      rawReplyID [0, 5, 0, 1] =
        Int.ofNat (256 * ([0, 5, 0, 1] : List Nat).getD 0 0 + ([0, 5, 0, 1] : List Nat).getD 1 0) ∧
      rawReplySeq [0, 5, 0, 1] =
        Int.ofNat (256 * ([0, 5, 0, 1] : List Nat).getD 2 0 + ([0, 5, 0, 1] : List Nat).getD 3 0) ∧
      matchBody (.raw [0, 5, 0, 1]) testEchoResp =
        (rawReplyID [0, 5, 0, 1] == testEchoResp.ID &&
         rawReplySeq [0, 5, 0, 1] == testEchoResp.Seq)) :=
  C10_raw_body_offsets [0, 5, 0, 1] testEchoResp (by decide)

/-! ## C4: deadline expiry versus expected outcome -/

/-- C4: when the read deadline expires, a probe expecting `timeout` is
PASSED and a probe expecting `response` is FAILED with details noting the
waited duration; a matching reply received by a probe expecting `timeout`
is FAILED.  The deadline branch always produces one of these two fully
determined results (actual result `timeout`), never the generic
`ReadFrom error` I/O failure. -/
theorem C4_timeout_expectation (config : Config) (test : Test)
    (result : TestResult) (m : ICMPMessage) (peer : String) (elapsed : Int) :
    (test.ExpectedResult = "timeout" →
      loopStep config test result (.timeout elapsed) =
        .done { result with Duration := elapsed, ActualResult := "timeout",
                            Status := "PASSED",
                            Details := "expected timeout occurred (after " ++
                                       durFmt test.Timeout ++ ")" }) ∧
    (test.ExpectedResult = "timeout" → matchBody m.Body test = true →
      loopStep config test result (.datagram (some m) peer elapsed) =
        .done (failR { result with Duration := elapsed,
                                   ActualResult := icmpTypeString m.«Type» }
          ("received response " ++ icmpTypeString m.«Type» ++ " from " ++ peer ++
           ", but expected timeout"))) ∧
    (test.ExpectedResult = "response" →
      loopStep config test result (.timeout elapsed) =
        .done (failR { result with Duration := elapsed, ActualResult := "timeout" }
          ("expected response, but timed out after " ++ durFmt test.Timeout ++
           " waiting for matching message"))) := by
  refine ⟨?_, ?_, ?_⟩
  · intro h
    simp [loopStep, h]
  · intro h hm
    simp [loopStep, h, hm]
  · intro h
    have hne : test.ExpectedResult ≠ "timeout" := by
      rw [h]
      decide
    simp [loopStep, hne]

/-- Witness for C4: the fixture probe expecting a timeout is PASSED on
deadline expiry and FAILED on a matching echo reply; the fixture probe
expecting a response is FAILED on deadline expiry. -/
theorem C4_timeout_expectation_witness :
    (loopStep cfg0 testEchoTimeoutExp (result0 testEchoTimeoutExp) (.timeout 1000000000) =
      .done { result0 testEchoTimeoutExp with
                Duration := 1000000000, ActualResult := "timeout", Status := "PASSED",
                Details := "expected timeout occurred (after " ++
                           durFmt testEchoTimeoutExp.Timeout ++ ")" }) ∧
    (loopStep cfg0 testEchoTimeoutExp (result0 testEchoTimeoutExp)
        (.datagram (some { «Type» := ICMPTypeEchoReply, Code := 0,
                           Body := .echo { ID := 5, Seq := 1, Data := [] } })
          "192.0.2.7" 5000000) =
      .done (failR { result0 testEchoTimeoutExp with
                       Duration := 5000000, ActualResult := icmpTypeString ICMPTypeEchoReply }
        ("received response " ++ icmpTypeString ICMPTypeEchoReply ++ " from " ++ "192.0.2.7" ++
         ", but expected timeout"))) ∧
    (loopStep cfg0 testEchoResp (result0 testEchoResp) (.timeout 1000000000) =
      .done (failR { result0 testEchoResp with
                       Duration := 1000000000, ActualResult := "timeout" }
        ("expected response, but timed out after " ++ durFmt testEchoResp.Timeout ++
         " waiting for matching message"))) :=
  ⟨(C4_timeout_expectation cfg0 testEchoTimeoutExp (result0 testEchoTimeoutExp)
      { «Type» := ICMPTypeEchoReply, Code := 0,
        Body := .echo { ID := 5, Seq := 1, Data := [] } } "192.0.2.7" 1000000000).1 rfl,
   (C4_timeout_expectation cfg0 testEchoTimeoutExp (result0 testEchoTimeoutExp)
      { «Type» := ICMPTypeEchoReply, Code := 0,
        Body := .echo { ID := 5, Seq := 1, Data := [] } } "192.0.2.7" 5000000).2.1 rfl (by decide),
   (C4_timeout_expectation cfg0 testEchoResp (result0 testEchoResp)
      { «Type» := ICMPTypeEchoReply, Code := 0,
        Body := .echo { ID := 5, Seq := 1, Data := [] } } "192.0.2.7" 1000000000).2.2 rfl⟩

/-! ## C7: expected reply type from request kind and destination -/

/-- C7: an `echo` request expects an echo reply for every destination; a
`timestamp` request expects the timestamp type itself when the destination
is a loopback address and a timestamp reply for every other destination. -/
theorem C7_expected_reply_type (test : Test) :
    (test.RequestType = ICMPTypeEcho →
      getICMPResponseType test = .ok ICMPTypeEchoReply) ∧
    (test.RequestType = ICMPTypeTimestamp →
      (destIsLoopback test.Destination = true →
        getICMPResponseType test = .ok ICMPTypeTimestamp) ∧
      (destIsLoopback test.Destination = false →
        getICMPResponseType test = .ok ICMPTypeTimestampReply)) := by
  constructor
  · intro h
    simp [getICMPResponseType, icmpTypeString, h, ICMPTypeEcho, ICMPTypeEchoReply]
  · intro h
    constructor
    · intro hl
      simp [getICMPResponseType, icmpTypeString, h, hl,
        ICMPTypeTimestamp, ICMPTypeEchoReply, ICMPTypeEcho]
    · intro hl
      simp [getICMPResponseType, icmpTypeString, h, hl,
        ICMPTypeTimestamp, ICMPTypeEchoReply, ICMPTypeEcho]

/-- Witness for C7: the echo fixture expects an echo reply; the loopback
timestamp fixture expects timestamp; the remote timestamp fixture expects
timestamp reply. -/
theorem C7_expected_reply_type_witness :
    getICMPResponseType testEchoResp = .ok ICMPTypeEchoReply ∧
    getICMPResponseType testTsLoopback = .ok ICMPTypeTimestamp ∧
    getICMPResponseType testTsRemote = .ok ICMPTypeTimestampReply :=
  ⟨(C7_expected_reply_type testEchoResp).1 rfl,
   ((C7_expected_reply_type testTsLoopback).2 rfl).1 rfl,
   ((C7_expected_reply_type testTsRemote).2 rfl).2 rfl⟩

/-! ## C5: self-probe noise filtering on unexpected reply types -/

/-- Counterexample to C5 as stated: an echo probe to the loopback address
receives a matching datagram of ICMP type timestamp — an observed type that
differs from the expected reply type AND from the probe's own original
request type — yet the correlator continues waiting instead of returning
FAILED naming the type. -/
theorem C5_counterexample :
    testSelfEcho.RequestType = ICMPTypeEcho ∧
    msgTsRawSelf.«Type» = ICMPTypeTimestamp ∧
    ICMPTypeTimestamp ≠ ICMPTypeEcho ∧
    ICMPTypeTimestamp ≠ ICMPTypeEchoReply ∧
    matchBody msgTsRawSelf.Body testSelfEcho = true ∧
    getICMPResponseType testSelfEcho = .ok ICMPTypeEchoReply ∧
    destIsLoopback testSelfEcho.Destination = true ∧
    loopStep cfg0 testSelfEcho (result0 testSelfEcho)
      (.datagram (some msgTsRawSelf) "127.0.0.1" 3000000) = .continueWaiting :=
  ⟨rfl, rfl, by decide, by decide, rfl, rfl, rfl, rfl⟩

/-- C5 (amended): for a matching reply of unexpected type, when the
destination is loopback or equals the configured source address the
correlator continues waiting exactly when the observed type is one of the
two supported request types (echo request or timestamp request — not only
the probe's own request type); for any other observed type, or when the
destination is neither loopback nor the source address, the result is
FAILED naming the unexpected type. -/
theorem C5_self_probe_noise_filter (config : Config) (test : Test)
    (result : TestResult) (m : ICMPMessage) (peer : String) (elapsed : Int)
    (exp : Int) (hmatch : matchBody m.Body test = true)
    (hresp : test.ExpectedResult ≠ "timeout")
    (hexp : getICMPResponseType test = .ok exp)
    (hne : m.«Type» ≠ exp) :
    (isSelfDest test.Destination config.General.SourceIPAddress = true →
      ((m.«Type» = ICMPTypeEcho ∨ m.«Type» = ICMPTypeTimestamp) →
        loopStep config test result (.datagram (some m) peer elapsed) =
          .continueWaiting) ∧
      (m.«Type» ≠ ICMPTypeEcho → m.«Type» ≠ ICMPTypeTimestamp →
        loopStep config test result (.datagram (some m) peer elapsed) =
          .done (failR { result with Duration := elapsed,
                                     ActualResult := icmpTypeString m.«Type» }
            ("received unexpected ICMP type " ++ icmpTypeString m.«Type» ++
             " from " ++ peer ++ " (expected " ++ icmpTypeString exp ++ ")")))) ∧
    (isSelfDest test.Destination config.General.SourceIPAddress = false →
      loopStep config test result (.datagram (some m) peer elapsed) =
        .done (failR { result with Duration := elapsed,
                                   ActualResult := icmpTypeString m.«Type» }
          ("received unexpected ICMP type " ++ icmpTypeString m.«Type» ++
           " from " ++ peer ++ " (expected " ++ icmpTypeString exp ++ ")"))) := by
  constructor
  · intro hself
    constructor
    · intro hty
      cases hty with
      | inl h =>
        have hne2 : ICMPTypeEcho ≠ exp := by
          rw [← h]
          exact hne
        simp [loopStep, hmatch, hresp, hexp, hne2, hself, h]
      | inr h =>
        have hne2 : ICMPTypeTimestamp ≠ exp := by
          rw [← h]
          exact hne
        simp [loopStep, hmatch, hresp, hexp, hne2, hself, h]
    · intro h1 h2
      simp [loopStep, hmatch, hresp, hexp, hne, hself, h1, h2]
  · intro hself
    simp [loopStep, hmatch, hresp, hexp, hne, hself]

/-- Witness for C5 (amended): the self probe keeps waiting on a matching
timestamp-typed datagram, and the remote probe fails on the same datagram
type, naming it. -/
theorem C5_self_probe_noise_filter_witness :
    (loopStep cfg0 testSelfEcho (result0 testSelfEcho)
      (.datagram (some msgTsRawSelf) "127.0.0.1" 3000000) = .continueWaiting) ∧
    (loopStep cfg0 testEchoResp (result0 testEchoResp)
      (.datagram (some { «Type» := ICMPTypeTimestamp, Code := 0,
                         Body := .raw [0, 5, 0, 1] }) "192.0.2.7" 3000000) =
      .done (failR { result0 testEchoResp with
                       Duration := 3000000,
                       ActualResult := icmpTypeString ICMPTypeTimestamp }
        ("received unexpected ICMP type " ++ icmpTypeString ICMPTypeTimestamp ++
         " from " ++ "192.0.2.7" ++ " (expected " ++
         icmpTypeString ICMPTypeEchoReply ++ ")"))) :=
  ⟨((C5_self_probe_noise_filter cfg0 testSelfEcho (result0 testSelfEcho)
      msgTsRawSelf "127.0.0.1" 3000000 ICMPTypeEchoReply rfl (by decide) rfl
      (by decide)).1 rfl).1 (Or.inr rfl),
   (C5_self_probe_noise_filter cfg0 testEchoResp (result0 testEchoResp)
      { «Type» := ICMPTypeTimestamp, Code := 0, Body := .raw [0, 5, 0, 1] }
      "192.0.2.7" 3000000 ICMPTypeEchoReply rfl (by decide) rfl
      (by decide)).2 rfl⟩

/-! ## C1: scope of session-setup failures -/

/-- Counterexample to C1 as stated: a failure to open the raw socket does
not produce a probe-local FAILED result — it aborts the whole process
(`log.Fatalf`), and so would take every other concurrently running probe
down with it. -/
theorem C1_counterexample :
    runICMPTest envListenFail cfg0 testEchoResp =
      .fatal "ListenIP failed: socket: operation not permitted" ∧
    (runICMPTest envListenFail cfg0 testEchoResp).isFatal = true :=
  ⟨rfl, rfl⟩

/-- C1 (amended): a destination-resolution failure produces a FAILED
result for that probe only; but a failure to open the raw socket, to apply
the ToS option, or to enable control messages aborts the whole process via
`log.Fatalf` rather than failing only that probe. -/
theorem C1_setup_failure_scope (env : NetEnv) (config : Config) (test : Test)
    (e : String) :
    (env.listenIPError = some e →
      runICMPTest env config test = .fatal ("ListenIP failed: " ++ e)) ∧
    (env.listenIPError = none → env.setTOSError = some e →
      runICMPTest env config test = .fatal ("SetTOS failed: " ++ e)) ∧
    (env.listenIPError = none → env.setTOSError = none →
      env.setControlMessageError = some e →
      runICMPTest env config test = .fatal ("SetControlMessage failed: " ++ e)) ∧
    (env.listenIPError = none → env.setTOSError = none →
      env.setControlMessageError = none → env.resolveError = some e →
      runICMPTest env config test =
        .result (failR (baseResult config test env.now)
          ("[error] test name: " ++ test.Name ++ ", ResolveIPAddr error: " ++ e)) ∧
      (failR (baseResult config test env.now)
        ("[error] test name: " ++ test.Name ++ ", ResolveIPAddr error: " ++ e)).Status =
        "FAILED") := by
  refine ⟨?_, ?_, ?_, ?_⟩
  · intro h1
    simp [runICMPTest, h1]
  · intro h1 h2
    simp [runICMPTest, h1, h2]
  · intro h1 h2 h3
    simp [runICMPTest, h1, h2, h3]
  · intro h1 h2 h3 h4
    exact ⟨by simp [runICMPTest, h1, h2, h3, h4], rfl⟩

/-- Witness for C1 (amended) at the three fixture environments. -/
theorem C1_setup_failure_scope_witness :
    (runICMPTest envListenFail cfg0 testEchoResp =
      .fatal ("ListenIP failed: " ++ "socket: operation not permitted")) ∧
    (runICMPTest envTOSFail cfg0 testEchoResp =
      .fatal ("SetTOS failed: " ++ "invalid argument")) ∧
    (runICMPTest envResolveFail cfg0 testEchoResp =
      .result (failR (baseResult cfg0 testEchoResp envResolveFail.now)
        ("[error] test name: " ++ testEchoResp.Name ++ ", ResolveIPAddr error: " ++
         "lookup nonesuch: no such host"))) :=
  ⟨(C1_setup_failure_scope envListenFail cfg0 testEchoResp
      "socket: operation not permitted").1 rfl,
   (C1_setup_failure_scope envTOSFail cfg0 testEchoResp
      "invalid argument").2.1 rfl rfl,
   ((C1_setup_failure_scope envResolveFail cfg0 testEchoResp
      "lookup nonesuch: no such host").2.2.2 rfl rfl rfl rfl).1⟩

/-! ## C6: per-probe validation -/

/-- Evidence for C6's divergence: the probe configured with timeout
`500us` — a duration below the 1ms lower bound that the code's own error
message (`must be between 1ms and 10s`) documents — passes every
validation and proceeds to the socket-opening stage instead of
short-circuiting to a FAILED result. -/
theorem C6_submillisecond_timeout_accepted :
    parseDurationLit "500us" = some 500000 ∧
    (500000 : Int) < 1000000 ∧
    prepareProbe parseDurationLit 5 0 0 tiTimeout500us = .proceed testSubMs ∧
    testSubMs.Timeout = 500000 :=
  ⟨rfl, by decide, by decide, rfl⟩

/-! ## C8: scheduler result ordering and identity assignment -/

theorem foldl_set_length (unit : Nat → TestResult) (l : List Nat) :
    ∀ arr : List (Option TestResult),
      (l.foldl (fun a i => a.set i (some (unit i))) arr).length = arr.length := by
  induction l with
  | nil => intro arr; rfl
  | cons i l ih =>
    intro arr
    rw [List.foldl_cons, ih]
    exact List.length_set arr i (some (unit i))

theorem foldl_set_getElem (unit : Nat → TestResult) (l : List Nat) :
    ∀ arr : List (Option TestResult), (∀ i ∈ l, i < arr.length) →
      ∀ j, j < arr.length →
        (l.foldl (fun a i => a.set i (some (unit i))) arr)[j]? =
          if j ∈ l then some (some (unit j)) else arr[j]? := by
  induction l with
  | nil =>
    intro arr _ j _
    simp
  | cons i l ih =>
    intro arr h j hj
    rw [List.foldl_cons]
    have hlen : (arr.set i (some (unit i))).length = arr.length :=
      List.length_set arr i (some (unit i))
    have hrec := ih (arr.set i (some (unit i)))
      (fun x hx => by rw [hlen]; exact h x (List.mem_cons_of_mem _ hx))
      j (by rw [hlen]; exact hj)
    rw [hrec]
    by_cases hjl : j ∈ l
    · simp [hjl, List.mem_cons]
    · by_cases hji : j = i
      · subst hji
        rw [if_neg hjl, if_pos (List.mem_cons_self j l)]
        exact List.getElem?_set_self hj
      · rw [if_neg hjl, if_neg (by simp [List.mem_cons, hji, hjl])]
        exact List.getElem?_set_ne (fun hc => hji hc.symm)

/-- C8: for k configured probes executed in any completion order that
covers the indices 0..k-1 (any parallelism), the result collection has
exactly k entries and the entry at index i is the result of the probe at
position i — a pure function of input order; and a probe validated at
0-based index i is assigned sequence number i + 1 with the shared
process-derived identifier. -/
theorem C8_scheduler_order_independence (unit : Nat → TestResult) (k : Nat)
    (order : List Nat) (horder : ∀ i, i ∈ order ↔ i < k)
    (pd : String → Option Int) (pid : Int) (now : Int) (i : Nat)
    (ti : testInput) (t : Test) :
    (execSchedule unit k order).length = k ∧
    (∀ j, j < k → (execSchedule unit k order)[j]? = some (some (unit j))) ∧
    (prepareProbe pd pid now i ti = .proceed t → t.Seq = (i : Int) + 1 ∧ t.ID = pid) := by
  refine ⟨?_, ?_, ?_⟩
  · rw [execSchedule, foldl_set_length]
    exact List.length_replicate k none
  · intro j hj
    have hlen : (List.replicate k (none : Option TestResult)).length = k :=
      List.length_replicate k none
    have h := foldl_set_getElem unit order (List.replicate k none)
      (fun x hx => by rw [hlen]; exact (horder x).mp hx) j (by rw [hlen]; exact hj)
    rw [execSchedule, h, if_pos ((horder j).mpr hj)]
  · intro hproc
    unfold prepareProbe at hproc
    repeat' split at hproc
    all_goals
      first
        | exact ProbePrep.noConfusion hproc
        | (rw [ProbePrep.proceed.injEq] at hproc
           subst hproc
           exact ⟨rfl, rfl⟩)

/-- Witness for C8: two slots, completion order [1, 0], every entry filled
with its own unit's result; and the validated fixture probe at index 0
carries sequence 1 and identifier 5. -/
theorem C8_scheduler_order_independence_witness :
    (execSchedule unit0 2 [1, 0]).length = 2 ∧
    (execSchedule unit0 2 [1, 0])[0]? = some (some (unit0 0)) ∧
    (execSchedule unit0 2 [1, 0])[1]? = some (some (unit0 1)) ∧
    testSubMs.Seq = (0 : Int) + 1 ∧ testSubMs.ID = 5 := by
  have h := C8_scheduler_order_independence unit0 2 [1, 0]
    (by
      intro i
      simp only [List.mem_cons, List.not_mem_nil, or_false]
      omega)
    parseDurationLit 5 0 0 tiTimeout500us testSubMs
  exact ⟨h.1, h.2.1 0 (by norm_num), h.2.1 1 (by norm_num), h.2.2 (by decide)⟩
